import Mathlib

/-!
Verification development for the sidecar-starter-pack device-control client.

The Python sources under src/functions are shallowly embedded: command
frames (nested Python dicts) become a small Json inductive, broker and
HTTP effects become explicit state passing on a record, and Python
division and dict subscripting (which can raise) become Except / Option.
Components whose source file is not part of the repository snapshot
(BrokerConnect in broker.py, Authentication in authentication.py, the
set_info wrapper in api_functions.py) are modelled from the spec and
marked as such in their doc comments.
-/

namespace FarmBot

/-- A JSON-like value, mirroring the nested Python dicts used as command
frames: a frame is an object with a "kind" string, an "args" object and
optionally a "body" list of nested frames. Numbers are rationals. -/
inductive Json where
  | null : Json
  | str : String → Json
  | num : ℚ → Json
  | arr : List Json → Json
  | obj : List (String × Json) → Json

/-- Look a key up in an association list of JSON object fields. -/
def lookupKey : List (String × Json) → String → Option Json
  | [], _ => none
  | (k, v) :: rest, key => if k = key then some v else lookupKey rest key

/-- Python dict subscripting on a JSON object: the value at a key, if any. -/
def Json.getKey : Json → String → Option Json
  | Json.obj kvs, key => lookupKey kvs key
  | _, _ => none

/-- The "kind" string of a frame, if present. -/
def kindOf (j : Json) : Option String :=
  match j.getKey "kind" with
  | some (Json.str s) => some s
  | _ => none

/-- The value of a key inside the "args" object of a frame. -/
def argOf (j : Json) (key : String) : Option Json :=
  match j.getKey "args" with
  | some a => a.getKey key
  | none => none

/-- The "body" list of a frame, if present. -/
def bodyOf (j : Json) : Option (List Json) :=
  match j.getKey "body" with
  | some (Json.arr l) => some l
  | _ => none

/-- The numeric "priority" carried in the "args" of an RPC envelope. -/
def priorityOf (j : Json) : Option ℚ :=
  match argOf j "priority" with
  | some (Json.num q) => some q
  | _ => none

/-- Whether a broker message has the given "kind". -/
def kindIs (m : Json) (k : String) : Bool :=
  decide (kindOf m = some k)

/-- One HTTP request issued through Authentication.request: method,
endpoint, optional resource id, optional JSON payload. -/
structure HttpReq where
  method : String
  endpoint : String
  database_id : Option ℕ
  payload : Option Json

/-- Modelled from the spec: the REST backend reached through
Authentication.request (authentication.py is not under src/). Per the
spec it answers GET with the JSON view of a resource and applies
POST/PATCH writes; we keep it abstract as a state type with a view
function, a write transition, and a write response body. -/
structure HttpServer (σ : Type) where
  view : σ → String → Option ℕ → Json
  step : σ → String → String → Option ℕ → Option Json → σ
  resp : σ → String → String → Option ℕ → Option Json → Json

/-- Process-wide state threaded through every call: the abstract REST
server state, the log of HTTP requests issued, the frames published to
the broker command topic in order, the lines printed to the console,
the shared last_message slot, and the inbound broker messages that
would arrive before a listen deadline. -/
structure SysState (σ : Type) where
  srv : σ
  request_log : List HttpReq
  published : List Json
  printed : List String
  last_message : Json
  incoming : List Json

/-- Modelled from the spec: BrokerConnect.publish (broker.py is not
under src/) serializes the frame and sends it on the fixed outbound
command topic, awaiting no acknowledgement; embedded as appending the
frame to the ordered list of published frames. -/
def publish {σ : Type} (s : SysState σ) (message : Json) : SysState σ :=
  { s with published := s.published ++ [message] }

/-- Modelled from the spec: BrokerConnect.wrap_message (broker.py is
not under src/) wraps a bare frame into an rpc_request envelope with an
empty label and the given priority. -/
def wrap_message (message : Json) (priority : ℚ) : Json :=
  Json.obj [("kind", Json.str "rpc_request"),
            ("args", Json.obj [("label", Json.str ""),
                               ("priority", Json.num priority)]),
            ("body", Json.arr [message])]

/-- Modelled from the spec: the default priority of an RPC envelope is
600 when no other priority is explicitly given to wrap_message. -/
def wrap_message_default (message : Json) : Json :=
  wrap_message message 600

/-- Modelled from the spec: BrokerConnect.listen (broker.py is not
under src/) blocks until a message whose kind matches arrives or the
timeout elapses; on a match it stores the payload in the shared
last_message slot, on timeout it leaves last_message untouched. The
messages arriving before the deadline are the incoming list. -/
def listen {σ : Type} (s : SysState σ) (timeout : ℚ) (expected_kind : String) :
    SysState σ :=
  match s.incoming.find? (fun m => kindIs m expected_kind) with
  | some m => { s with last_message := m }
  | none => s

/-- Modelled from the spec: Authentication.request (authentication.py
is not under src/) sends one HTTP request with the bearer token and
returns the parsed JSON response; GET returns the current view of the
resource, POST/PATCH advance the server state and return the server
response body. Every request is appended to the request log. -/
def request {σ : Type} (S : HttpServer σ) (s : SysState σ)
    (method endpoint : String) (database_id : Option ℕ) (payload : Option Json) :
    Json × SysState σ :=
  let s1 := { s with request_log :=
                s.request_log ++ [⟨method, endpoint, database_id, payload⟩] }
  if method = "GET" then
    (S.view s.srv endpoint database_id, s1)
  else
    (S.resp s.srv method endpoint database_id payload,
     { s1 with srv := S.step s.srv method endpoint database_id payload })

/-- Information.get_info: issues GET on the endpoint and returns the
JSON as is. -/
def get_info {σ : Type} (S : HttpServer σ) (s : SysState σ)
    (endpoint : String) (database_id : Option ℕ) : Json × SysState σ :=
  request S s "GET" endpoint database_id none

/-- Information.edit_info: issues PATCH with the new data, then
re-fetches the endpoint with get_info and returns the re-fetched
resource. -/
def edit_info {σ : Type} (S : HttpServer σ) (s : SysState σ)
    (endpoint : String) (new_data : Json) (database_id : Option ℕ) :
    Json × SysState σ :=
  let s1 := (request S s "PATCH" endpoint database_id (some new_data)).2
  let r := get_info S s1 endpoint database_id
  (r.1, r.2)

/-- Information.add_info: issues POST with the new data (no resource
id), then re-fetches the endpoint with get_info and returns the
re-fetched resource. -/
def add_info {σ : Type} (S : HttpServer σ) (s : SysState σ)
    (endpoint : String) (new_data : Json) : Json × SysState σ :=
  let s1 := (request S s "POST" endpoint none (some new_data)).2
  let r := get_info S s1 endpoint none
  (r.1, r.2)

/-- Modelled from the spec: set_info lives in api_functions.py, which
is not under src/; per the spec it issues PATCH with the single-field
payload and then re-fetches and returns the updated resource. -/
def set_info {σ : Type} (S : HttpServer σ) (s : SysState σ)
    (endpoint field : String) (value : Json) (database_id : Option ℕ) :
    Json × SysState σ :=
  let s1 := (request S s "PATCH" endpoint database_id
              (some (Json.obj [(field, value)]))).2
  let r := get_info S s1 endpoint database_id
  (r.1, r.2)

/-- Python true division: raises ZeroDivisionError on a zero divisor,
otherwise exact division. -/
def pydiv (a b : ℚ) : Except String ℚ :=
  if b = 0 then Except.error "ZeroDivisionError" else Except.ok (a / b)

/-- The firmware_config fields read by garden_size, as fetched from the
firmware_config endpoint. -/
structure FirmwareConfig where
  movement_axis_nr_steps_x : ℚ
  movement_step_per_mm_x : ℚ
  movement_axis_nr_steps_y : ℚ
  movement_step_per_mm_y : ℚ

/-- Information.garden_size: computes both axis lengths by dividing
step counts by steps-per-mm (unguarded Python division) and the area as
their product, on the fetched firmware_config data. -/
def garden_size (json_data : FirmwareConfig) : Except String (ℚ × ℚ × ℚ) := do
  let x_steps := json_data.movement_axis_nr_steps_x
  let x_mm := json_data.movement_step_per_mm_x
  let y_steps := json_data.movement_axis_nr_steps_y
  let y_mm := json_data.movement_step_per_mm_y
  let length_x ← pydiv x_steps x_mm
  let length_y ← pydiv y_steps y_mm
  let area := length_x * length_y
  return (length_x, length_y, area)

/-- The axis_overwrite frame built inside MovementControls.move: one
axis name and a numeric axis_operand. -/
def axis_overwrite (axis : String) (value : ℚ) : Json :=
  Json.obj [("kind", Json.str "axis_overwrite"),
            ("args", Json.obj
              [("axis", Json.str axis),
               ("axis_operand", Json.obj
                 [("kind", Json.str "numeric"),
                  ("args", Json.obj [("number", Json.num value)])])])]

/-- The rpc_request envelope built inside MovementControls.move: one
move frame whose body overwrites the three axes in order x, y, z. -/
def move_message (x y z : ℚ) : Json :=
  Json.obj [("kind", Json.str "rpc_request"),
            ("args", Json.obj [("label", Json.str ""),
                               ("priority", Json.num 600)]),
            ("body", Json.arr
              [Json.obj [("kind", Json.str "move"),
                         ("args", Json.obj []),
                         ("body", Json.arr
                           [axis_overwrite "x" x,
                            axis_overwrite "y" y,
                            axis_overwrite "z" z])]])]

/-- MovementControls.move: publishes the move envelope and returns
None (Python has no return value here). -/
def move {σ : Type} (s : SysState σ) (x y z : ℚ) : Option Json × SysState σ :=
  (none, publish s (move_message x y z))

/-- The rpc_request envelope built inside MovementControls.find_home
for a given axis and speed. -/
def find_home_message (axis : String) (speed : ℚ) : Json :=
  Json.obj [("kind", Json.str "rpc_request"),
            ("args", Json.obj [("label", Json.str ""),
                               ("priority", Json.num 600)]),
            ("body", Json.arr
              [Json.obj [("kind", Json.str "find_home"),
                         ("args", Json.obj [("axis", Json.str axis),
                                            ("speed", Json.num speed)])]])]

/-- MovementControls.find_home: if the speed is above 100 or below 1 it
only prints the error line and returns None (return print(...) in the
source); otherwise it publishes the find_home envelope and returns
None. -/
def find_home {σ : Type} (s : SysState σ) (axis : String) (speed : ℚ) :
    Option Json × SysState σ :=
  if speed > 100 ∨ speed < 1 then
    (none, { s with printed := s.printed ++ ["ERROR: Speed constrained to 1-100."] })
  else
    (none, publish s (find_home_message axis speed))

/-- The body of the loop in MovementControls.check_position: walk the
zipped (user value, actual value) pairs and return False at the first
axis whose user value falls outside actual plus or minus tolerance,
True when every pair passes. -/
def check_position_loop (tolerance : ℚ) : List (ℚ × ℚ) → Bool
  | [] => true
  | (user_value, actual_value) :: rest =>
    if ¬ (actual_value - tolerance ≤ user_value ∧
          user_value ≤ actual_value + tolerance) then
      false
    else
      check_position_loop tolerance rest

/-- MovementControls.check_position on the position returned by
get_xyz: zips the three user values with the three actual coordinates
and runs the tolerance loop. -/
def check_position (user_x user_y user_z tolerance : ℚ)
    (position : ℚ × ℚ × ℚ) : Bool :=
  let user_values := [user_x, user_y, user_z]
  let actual_vals := [position.1, position.2.1, position.2.2]
  check_position_loop tolerance (user_values.zip actual_vals)

/-- The bare emergency_lock frame built inside BasicCommands.e_stop. -/
def stop_message : Json :=
  Json.obj [("kind", Json.str "emergency_lock"), ("args", Json.obj [])]

/-- BasicCommands.e_stop: wraps the emergency_lock frame at priority
9000 and publishes it. -/
def e_stop {σ : Type} (s : SysState σ) : SysState σ :=
  publish s (wrap_message stop_message 9000)

/-- The bare emergency_unlock frame built inside BasicCommands.unlock. -/
def unlock_message : Json :=
  Json.obj [("kind", Json.str "emergency_unlock"), ("args", Json.obj [])]

/-- BasicCommands.unlock: wraps the emergency_unlock frame at priority
9000 and publishes it. -/
def unlock {σ : Type} (s : SysState σ) : SysState σ :=
  publish s (wrap_message unlock_message 9000)

/-- The bare read_status frame built inside Information.read_status. -/
def read_status_message : Json :=
  Json.obj [("kind", Json.str "read_status"), ("args", Json.obj [])]

/-- Information.read_status: wraps the read_status frame at priority
600, publishes it, listens 15 seconds for a message of kind status,
then returns whatever the shared last_message slot holds. -/
def read_status {σ : Type} (s : SysState σ) : Json × SysState σ :=
  let status_message := wrap_message read_status_message 600
  let s1 := publish s status_message
  let s2 := listen s1 15 "status"
  let status_tree := s2.last_message
  (status_tree, s2)

/-- The read_pin frame built inside Information.read_sensor: the pin
mode fetched from the peripheral resource, a fixed label, and a
named_pin reference of pin_type Peripheral with the given id. -/
def read_pin_message (mode : Json) (peripheral_id : ℕ) : Json :=
  Json.obj [("kind", Json.str "read_pin"),
            ("args", Json.obj
              [("pin_mode", mode),
               ("label", Json.str "---"),
               ("pin_number", Json.obj
                 [("kind", Json.str "named_pin"),
                  ("args", Json.obj
                    [("pin_type", Json.str "Peripheral"),
                     ("pin_id", Json.num (peripheral_id : ℚ))])])])]

/-- Information.read_sensor: fetches the peripheral resource with
get_info, subscripts its mode field (a KeyError if absent), then
publishes the read_pin frame; returns None. -/
def read_sensor {σ : Type} (S : HttpServer σ) (s : SysState σ)
    (peripheral_id : ℕ) : Except String (Option Json × SysState σ) :=
  let r := get_info S s "peripherals" (some peripheral_id)
  match r.1.getKey "mode" with
  | none => Except.error "KeyError: mode"
  | some mode => Except.ok (none, publish r.2 (read_pin_message mode peripheral_id))

/-- A concrete one-point REST backend used to instantiate theorems: the
peripherals endpoint answers with a resource whose mode is 0, every
other endpoint answers null, and writes are absorbed. -/
def unitServer : HttpServer Unit where
  view := fun _ endpoint _ =>
    if endpoint = "peripherals" then Json.obj [("mode", Json.num 0)] else Json.null
  step := fun _ _ _ _ _ => ()
  resp := fun _ _ _ _ _ => Json.null

/-- The initial process state: nothing published, printed, logged or
received. -/
def s0 : SysState Unit :=
  { srv := (), request_log := [], published := [], printed := [],
    last_message := Json.null, incoming := [] }

/-- A listen call never changes the list of published frames, whether
or not a matching message arrives. -/
theorem listen_published {σ : Type} (s : SysState σ) (t : ℚ) (k : String) :
    (listen s t k).published = s.published := by
  unfold listen
  cases s.incoming.find? (fun m => kindIs m k) <;> rfl

/-- The tolerance loop accepts a list of (user, actual) pairs exactly
when every pair lies within the inclusive tolerance band. -/
theorem check_position_loop_true_iff (tolerance : ℚ) (l : List (ℚ × ℚ)) :
    check_position_loop tolerance l = true ↔
      ∀ pr ∈ l, pr.2 - tolerance ≤ pr.1 ∧ pr.1 ≤ pr.2 + tolerance := by
  induction l with
  | nil => simp [check_position_loop]
  | cons hd tl ih =>
    obtain ⟨u, a⟩ := hd
    by_cases h : a - tolerance ≤ u ∧ u ≤ a + tolerance
    · simp only [check_position_loop, if_neg (not_not_intro h)]
      rw [ih]
      constructor
      · intro htl pr hpr
        rcases List.mem_cons.mp hpr with heq | hmem
        · subst heq
          exact h
        · exact htl pr hmem
      · intro hall pr hpr
        exact hall pr (List.mem_cons_of_mem _ hpr)
    · simp only [check_position_loop, if_pos h]
      refine iff_of_false (by simp) ?_
      intro hall
      exact h (hall (u, a) (List.mem_cons_self _ _))

/-- Claim C1: for every speed in the inclusive range from 1 to 100,
find_home publishes exactly one frame carrying that axis and speed and
prints nothing; for every speed above 100 or below 1 it publishes no
frame and surfaces the user-visible error line, so no network effect
precedes the error. -/
theorem C1_find_home_validation {σ : Type} (s : SysState σ) (axis : String)
    (speed : ℚ) :
    (1 ≤ speed → speed ≤ 100 →
      (find_home s axis speed).2.published =
        s.published ++ [find_home_message axis speed] ∧
      (find_home s axis speed).2.printed = s.printed ∧
      bodyOf (find_home_message axis speed) =
        some [Json.obj [("kind", Json.str "find_home"),
                        ("args", Json.obj [("axis", Json.str axis),
                                           ("speed", Json.num speed)])]]) ∧
    (speed > 100 ∨ speed < 1 →
      (find_home s axis speed).2.published = s.published ∧
      (find_home s axis speed).2.printed =
        s.printed ++ ["ERROR: Speed constrained to 1-100."]) := by
  constructor
  · intro h1 h2
    have hc : ¬ (speed > 100 ∨ speed < 1) := by
      push_neg
      exact ⟨h2, h1⟩
    refine ⟨?_, ?_, rfl⟩ <;> simp [find_home, hc, publish]
  · intro h
    exact ⟨by simp [find_home, h], by simp [find_home, h]⟩

/-- Witness for C1 at concrete inputs: speed 50 publishes exactly the
find_home frame, speed 101 publishes nothing and prints the error. -/
theorem C1_find_home_validation_witness :
    (find_home s0 "all" (50 : ℚ)).2.published = [find_home_message "all" 50] ∧
    (find_home s0 "all" (101 : ℚ)).2.published = [] ∧
    (find_home s0 "all" (101 : ℚ)).2.printed =
      ["ERROR: Speed constrained to 1-100."] := by
  have hin := (C1_find_home_validation s0 "all" 50).1 (by norm_num) (by norm_num)
  have hout := (C1_find_home_validation s0 "all" 101).2 (Or.inl (by norm_num))
  refine ⟨?_, ?_, ?_⟩
  · simpa [s0] using hin.1
  · simpa [s0] using hout.1
  · simpa [s0] using hout.2

/-- Claim C2: move publishes exactly one rpc_request frame whose body
is exactly one move frame, whose body in turn is the three
axis_overwrite frames in the order x, y, z, each carrying a numeric
operand equal to the corresponding argument; move returns no value. -/
theorem C2_move_publishes_one_envelope {σ : Type} (s : SysState σ) (x y z : ℚ) :
    (move s x y z).2.published = s.published ++ [move_message x y z] ∧
    (move s x y z).1 = none ∧
    kindOf (move_message x y z) = some "rpc_request" ∧
    bodyOf (move_message x y z) =
      some [Json.obj [("kind", Json.str "move"),
                      ("args", Json.obj []),
                      ("body", Json.arr [axis_overwrite "x" x,
                                         axis_overwrite "y" y,
                                         axis_overwrite "z" z])]] ∧
    (∀ a v, kindOf (axis_overwrite a v) = some "axis_overwrite" ∧
      argOf (axis_overwrite a v) "axis" = some (Json.str a) ∧
      argOf (axis_overwrite a v) "axis_operand" =
        some (Json.obj [("kind", Json.str "numeric"),
                        ("args", Json.obj [("number", Json.num v)])])) :=
  ⟨rfl, rfl, rfl, rfl, fun _ _ => ⟨rfl, rfl, rfl⟩⟩

/-- Claim C3: check_position returns true exactly when each of the
three axes has its actual coordinate within the inclusive tolerance of
the expected one. -/
theorem C3_check_position_iff (x y z tolerance : ℚ) (p : ℚ × ℚ × ℚ) :
    check_position x y z tolerance p = true ↔
      (|p.1 - x| ≤ tolerance ∧ |p.2.1 - y| ≤ tolerance ∧
       |p.2.2 - z| ≤ tolerance) := by
  rw [check_position, check_position_loop_true_iff]
  simp only [List.zip, List.zipWith, List.mem_cons, List.not_mem_nil, or_false,
    forall_eq_or_imp, forall_eq]
  constructor
  · rintro ⟨⟨h1a, h1b⟩, ⟨h2a, h2b⟩, h3a, h3b⟩
    refine ⟨?_, ?_, ?_⟩ <;> rw [abs_le] <;> constructor <;> linarith
  · rintro ⟨h1, h2, h3⟩
    rw [abs_le] at h1 h2 h3
    refine ⟨⟨?_, ?_⟩, ⟨?_, ?_⟩, ?_, ?_⟩ <;> linarith

/-- Claim C4: on a firmware_config with nonzero steps-per-mm on both
axes, garden_size returns the two axis lengths as quotients together
with their product as the area; when either steps-per-mm is zero the
unguarded division surfaces a ZeroDivisionError. -/
theorem C4_garden_size_area (cfg : FirmwareConfig) :
    (cfg.movement_step_per_mm_x ≠ 0 → cfg.movement_step_per_mm_y ≠ 0 →
      garden_size cfg = Except.ok
        (cfg.movement_axis_nr_steps_x / cfg.movement_step_per_mm_x,
         cfg.movement_axis_nr_steps_y / cfg.movement_step_per_mm_y,
         (cfg.movement_axis_nr_steps_x / cfg.movement_step_per_mm_x) *
           (cfg.movement_axis_nr_steps_y / cfg.movement_step_per_mm_y))) ∧
    (cfg.movement_step_per_mm_x = 0 ∨ cfg.movement_step_per_mm_y = 0 →
      garden_size cfg = Except.error "ZeroDivisionError") := by
  constructor
  · intro hx hy
    simp only [garden_size, pydiv, if_neg hx, if_neg hy]
    rfl
  · intro h
    by_cases hx : cfg.movement_step_per_mm_x = 0
    · simp only [garden_size, pydiv, if_pos hx]
      rfl
    · rcases h with h | h
      · exact absurd h hx
      · simp only [garden_size, pydiv, if_neg hx, if_pos h]
        rfl

/-- Witness for C4 at a concrete config: steps 1000 and 2000 with 5 and
4 steps-per-mm give lengths 200 and 500 and area 100000, and a zero
x-axis steps-per-mm surfaces the division error. -/
theorem C4_garden_size_area_witness :
    garden_size ⟨1000, 5, 2000, 4⟩ =
      Except.ok ((1000 : ℚ) / 5, (2000 : ℚ) / 4,
        ((1000 : ℚ) / 5) * ((2000 : ℚ) / 4)) ∧
    garden_size ⟨1000, 0, 2000, 4⟩ = Except.error "ZeroDivisionError" :=
  ⟨(C4_garden_size_area ⟨1000, 5, 2000, 4⟩).1 (by norm_num) (by norm_num),
   (C4_garden_size_area ⟨1000, 0, 2000, 4⟩).2 (Or.inl rfl)⟩

/-- Claim C5: the frames published by e_stop and by unlock are wrapped
in an RPC envelope at priority 9000; any frame wrapped by wrap_message
carries exactly the priority it is given, with 600 as the default when
none is given explicitly, and in particular the read_status envelope
carries priority 600. -/
theorem C5_envelope_priorities {σ : Type} (s : SysState σ) (f : Json) (p : ℚ) :
    (e_stop s).published = s.published ++ [wrap_message stop_message 9000] ∧
    priorityOf (wrap_message stop_message 9000) = some 9000 ∧
    (unlock s).published = s.published ++ [wrap_message unlock_message 9000] ∧
    priorityOf (wrap_message unlock_message 9000) = some 9000 ∧
    (read_status s).2.published =
      s.published ++ [wrap_message read_status_message 600] ∧
    priorityOf (wrap_message read_status_message 600) = some 600 ∧
    priorityOf (wrap_message f p) = some p ∧
    priorityOf (wrap_message_default f) = some 600 := by
  refine ⟨rfl, rfl, rfl, rfl, ?_, rfl, rfl, rfl⟩
  show (listen (publish s (wrap_message read_status_message 600)) 15
          "status").published = _
  rw [listen_published]
  rfl

/-- Claim C6: each write operation issues its PATCH or POST first and a
GET on the same resource second, and returns the re-fetched view the
server holds after applying the write, not the locally supplied
payload. -/
theorem C6_write_then_refetch {σ : Type} (S : HttpServer σ) (s : SysState σ)
    (endpoint field : String) (new_data value : Json) (database_id : Option ℕ) :
    ((edit_info S s endpoint new_data database_id).2.request_log =
        s.request_log ++ [⟨"PATCH", endpoint, database_id, some new_data⟩,
                          ⟨"GET", endpoint, database_id, none⟩] ∧
      (edit_info S s endpoint new_data database_id).1 =
        S.view (S.step s.srv "PATCH" endpoint database_id (some new_data))
          endpoint database_id) ∧
    ((add_info S s endpoint new_data).2.request_log =
        s.request_log ++ [⟨"POST", endpoint, none, some new_data⟩,
                          ⟨"GET", endpoint, none, none⟩] ∧
      (add_info S s endpoint new_data).1 =
        S.view (S.step s.srv "POST" endpoint none (some new_data))
          endpoint none) ∧
    ((set_info S s endpoint field value database_id).2.request_log =
        s.request_log ++
          [⟨"PATCH", endpoint, database_id, some (Json.obj [(field, value)])⟩,
           ⟨"GET", endpoint, database_id, none⟩] ∧
      (set_info S s endpoint field value database_id).1 =
        S.view
          (S.step s.srv "PATCH" endpoint database_id
            (some (Json.obj [(field, value)])))
          endpoint database_id) := by
  refine ⟨⟨?_, rfl⟩, ⟨?_, rfl⟩, ⟨?_, rfl⟩⟩ <;>
    simp [edit_info, add_info, set_info, get_info, request]

/-- Claim C7: read_status publishes the read_status envelope at
priority 600, then listens for a message of kind status and returns
whatever the shared last_message slot holds afterwards; when no message
of kind status arrives before the deadline it returns the pre-call
value of last_message unchanged. -/
theorem C7_read_status_returns_slot {σ : Type} (s : SysState σ) :
    (read_status s).2.published =
      s.published ++ [wrap_message read_status_message 600] ∧
    priorityOf (wrap_message read_status_message 600) = some 600 ∧
    (read_status s).1 =
      (listen (publish s (wrap_message read_status_message 600)) 15
        "status").last_message ∧
    ((∀ m ∈ s.incoming, kindOf m ≠ some "status") →
      (read_status s).1 = s.last_message) := by
  refine ⟨?_, rfl, rfl, ?_⟩
  · show (listen (publish s (wrap_message read_status_message 600)) 15
            "status").published = _
    rw [listen_published]
    rfl
  · intro h
    have hfind : (publish s (wrap_message read_status_message 600)).incoming.find?
        (fun m => kindIs m "status") = none := by
      apply List.find?_eq_none.mpr
      intro m hm
      simpa [kindIs] using h m hm
    show (listen (publish s (wrap_message read_status_message 600)) 15
            "status").last_message = _
    rw [listen, hfind]
    rfl

/-- Witness for C7 on the initial state, which has no incoming
messages: the returned tree is the stale pre-call last_message. -/
theorem C7_read_status_returns_slot_witness :
    (read_status s0).1 = s0.last_message :=
  (C7_read_status_returns_slot s0).2.2.2 (by simp [s0])

/-- Claim C8: read_sensor first issues the GET on the peripherals
resource to obtain its configured mode, then publishes exactly one
read_pin frame whose pin_mode is that fetched mode and whose pin_number
is a named_pin reference of pin_type Peripheral with the given id, and
returns no value. -/
theorem C8_read_sensor_named_pin {σ : Type} (S : HttpServer σ) (s : SysState σ)
    (peripheral_id : ℕ) (mode : Json)
    (h : (S.view s.srv "peripherals" (some peripheral_id)).getKey "mode" =
      some mode) :
    ∃ s2, read_sensor S s peripheral_id = Except.ok (none, s2) ∧
      s2.request_log =
        s.request_log ++ [⟨"GET", "peripherals", some peripheral_id, none⟩] ∧
      s2.published = s.published ++ [read_pin_message mode peripheral_id] ∧
      kindOf (read_pin_message mode peripheral_id) = some "read_pin" ∧
      argOf (read_pin_message mode peripheral_id) "pin_mode" = some mode ∧
      argOf (read_pin_message mode peripheral_id) "pin_number" =
        some (Json.obj [("kind", Json.str "named_pin"),
                        ("args", Json.obj
                          [("pin_type", Json.str "Peripheral"),
                           ("pin_id", Json.num (peripheral_id : ℚ))])]) := by
  refine ⟨publish
      { s with request_log :=
          s.request_log ++ [⟨"GET", "peripherals", some peripheral_id, none⟩] }
      (read_pin_message mode peripheral_id), ?_, rfl, rfl, rfl, rfl, rfl⟩
  simp only [read_sensor, get_info, request, ite_true]
  rw [h]

/-- Witness for C8 on the one-point backend, whose peripherals view
carries mode 0: peripheral 1 yields exactly one read_pin frame. -/
theorem C8_read_sensor_named_pin_witness :
    ∃ s2, read_sensor unitServer s0 1 = Except.ok (none, s2) ∧
      s2.published = [read_pin_message (Json.num 0) 1] := by
  obtain ⟨s2, h1, _, h3, _⟩ :=
    C8_read_sensor_named_pin unitServer s0 1 (Json.num 0) rfl
  exact ⟨s2, h1, by simpa [s0] using h3⟩

/-- Claim C9: with a strictly negative tolerance the inclusive bounds
test is unsatisfiable, so check_position returns False for every
reported position, even one equal to the expected coordinates. -/
theorem C9_negative_tolerance_always_false (x y z tolerance : ℚ)
    (p : ℚ × ℚ × ℚ) (h : tolerance < 0) :
    check_position x y z tolerance p = false := by
  have hfail : ¬ (p.1 - tolerance ≤ x ∧ x ≤ p.1 + tolerance) := by
    rintro ⟨h1, h2⟩
    linarith
  simp only [check_position, List.zip, List.zipWith, check_position_loop,
    if_pos hfail]

/-- Witness for C9: tolerance minus one rejects even the exact position
(1, 2, 3). -/
theorem C9_negative_tolerance_always_false_witness :
    check_position 1 2 3 (-1) (1, 2, 3) = false :=
  C9_negative_tolerance_always_false 1 2 3 (-1) (1, 2, 3) (by norm_num)

/-- Claim C10: find_home returns None on both branches, and on an
out-of-range speed it only prints the error line without publishing, so
the return value cannot distinguish a successful publish from a
rejected validation. -/
theorem C10_find_home_always_none {σ : Type} (s : SysState σ) (axis : String)
    (speed : ℚ) :
    (find_home s axis speed).1 = none ∧
    (speed > 100 ∨ speed < 1 →
      (find_home s axis speed).2.published = s.published ∧
      (find_home s axis speed).2.printed =
        s.printed ++ ["ERROR: Speed constrained to 1-100."]) := by
  constructor
  · by_cases h : speed > 100 ∨ speed < 1 <;> simp [find_home, h]
  · intro h
    exact ⟨by simp [find_home, h], by simp [find_home, h]⟩

/-- Witness for C10: both an in-range and an out-of-range call return
None, and the rejected call leaves nothing published. -/
theorem C10_find_home_always_none_witness :
    (find_home s0 "all" (50 : ℚ)).1 = none ∧
    (find_home s0 "all" (200 : ℚ)).1 = none ∧
    (find_home s0 "all" (200 : ℚ)).2.published = [] := by
  refine ⟨(C10_find_home_always_none s0 "all" 50).1,
    (C10_find_home_always_none s0 "all" 200).1, ?_⟩
  have h := (C10_find_home_always_none s0 "all" 200).2 (Or.inl (by norm_num))
  simpa [s0] using h.1

end FarmBot
